import Mathlib

/-!
Verification development for the food-nutrition frontend.

Shallow embedding of the parts of the codebase that carry contracts:
* `src/lib/api/client.ts` — `ApiClient.request` (status→message table,
  success envelope unwrapping, catch-clause semantics);
* `src/lib/stripe/config.ts` — `getErrorMessage`;
* the checkout page — `handlePaymentSubmit` (direct subscription flow);
* `use-auth` hook — `logout`, `initializeAuth`, `refreshToken`;
* `use-admin` hook — `checkAdminAccess` / `hasPermission`.

JavaScript runtime values exchanged with the backend are modelled by a
small JSON datatype; numbers are modelled as integers (no claim in scope
depends on float behaviour).
-/

/-- JSON values as parsed by `response.json()`. -/
inductive Json where
  | null
  | bool (b : Bool)
  | num (n : Int)
  | str (s : String)
  | arr (elems : List Json)
  | obj (fields : List (String × Json))

/-- JavaScript truthiness of a JSON value (`undefined` is represented by
`Option.none` at use sites, never by a `Json` constructor). -/
def Json.truthy : Json → Bool
  | .null => false
  | .bool b => b
  | .num n => n != 0
  | .str s => s != ""
  | .arr _ => true
  | .obj _ => true

/-- First-match lookup in an object's field list (JS objects have unique
keys, so first match is the JS semantics). -/
def lookupField : List (String × Json) → String → Option Json
  | [], _ => none
  | (k, v) :: rest, key => if k == key then some v else lookupField rest key

/-- Pure field lookup on a JSON value (`none` models `undefined`). This
is the value JS member access yields on a non-null receiver; member
access itself — including the `TypeError` it throws on `null` — is
`jsMember` below, and `getField` is only used where the receiver is
known non-null. -/
def Json.getField : Json → String → Option Json
  | .obj fs, key => lookupField fs key
  | _, _ => none

/-- Replace the value of `key` in place if present, else append the pair:
the field layout of the JS object literal `{ ...fs, key: v }`. -/
def setField : List (String × Json) → String → Json → List (String × Json)
  | [], key, v => [(key, v)]
  | (k, w) :: rest, key, v =>
    if k == key then (k, v) :: rest else (k, w) :: setField rest key v

/-- A JavaScript exception as observed by the `catch` clause of
`ApiClient.request`: whether it is an `instanceof Error`, whether it is an
`instanceof TypeError`, and its `message`. -/
structure JsException where
  isError : Bool
  isTypeError : Bool
  message : String

/-- `pat` occurs at the start of `s` (character lists). -/
def charsAtStart : List Char → List Char → Bool
  | [], _ => true
  | _ :: _, [] => false
  | a :: as, b :: bs => a == b && charsAtStart as bs

/-- `pat` occurs somewhere in `s` (character lists). -/
def charsHave (pat : List Char) : List Char → Bool
  | [] => charsAtStart pat []
  | c :: rest => charsAtStart pat (c :: rest) || charsHave pat rest

/-- `s.includes(pat)` from JavaScript. -/
def strIncludes (s pat : String) : Bool := charsHave pat.data s.data

/-- The `details` argument of a thrown `ApiError`: either the backend JSON
payload (non-2xx branch) or the caught exception (catch branch). -/
inductive ErrDetails where
  | fromJson (j : Json)
  | fromExc (e : JsException)

/-- The `ApiError` class of `src/types/api.ts`: message, HTTP status and
details. The message is kept as a JSON value because the source assigns
`data.detail || 'API request failed'`, which need not be a string. -/
structure ApiErrorT where
  message : Json
  status : Nat
  details : ErrDetails

/-- An HTTP response as `request` consumes it: its status and the result
of `response.json()` (which can itself throw). -/
structure FetchResponse where
  status : Nat
  jsonBody : Except JsException Json

/-- Outcome of the `fetch` call inside `ApiClient.request`: either the
fetch itself threw (network failure), or a response arrived. -/
inductive FetchOutcome where
  | netError (e : JsException)
  | response (r : FetchResponse)

/-- `response.ok` — status in the inclusive range 200–299. -/
def responseOk (status : Nat) : Bool := 200 ≤ status && status ≤ 299

/-- The `ApiResponse` envelope returned on success. -/
structure ApiResponse where
  data : Json
  success : Bool
  status : Nat

/-- The `TypeError` thrown by JS member access on `null` (reading a
property of the parsed body when it is the JSON literal `null`). The
message text is engine-dependent; the V8 wording is used, and no claim
depends on it beyond its not containing `fetch`. -/
def nullReadExc (key : String) : JsException :=
  ⟨true, true, "Cannot read properties of null (reading \x27" ++ key ++ "\x27)"⟩

/-- JS member access `j.key`: throws a `TypeError` when `j` is `null`;
otherwise yields the property (`none` models `undefined`, which is also
what member access on a boxed primitive or an array returns for these
keys). -/
def jsMember : Json → String → Except JsException (Option Json)
  | .null, key => .error (nullReadExc key)
  | .obj fs, key => .ok (lookupField fs key)
  | _, _ => .ok none

/-- `x || dflt` where `x` is the (possibly undefined) result of a member
access: a falsy or undefined value falls back to `dflt`. -/
def jsOrElse (x : Option Json) (dflt : Json) : Json :=
  match x with
  | some v => if v.truthy then v else dflt
  | none => dflt

/-- The `switch (response.status)` table of `ApiClient.request`;
`dflt` is the already-computed `data.detail || 'API request failed'`. -/
def statusMessage (status : Nat) (dflt : Json) : Json :=
  match status with
  | 400 => .str "Invalid request. Please check your input and try again."
  | 401 => .str "Please log in to continue."
  | 403 => .str "You don\x27t have permission to perform this action."
  | 404 => .str "The requested resource was not found."
  | 422 => .str "Please check your input and try again."
  | 429 => .str "Too many requests. Please wait a moment and try again."
  | 500 => .str "Server error. Please try again later."
  | 502 => .str "Service temporarily unavailable. Please try again later."
  | 503 => .str "Service temporarily unavailable. Please try again later."
  | 504 => .str "Service temporarily unavailable. Please try again later."
  | _ => dflt

/-- `{ ...data, originalMessage: data.detail }` — the details object of the
non-2xx branch. An absent `detail` is conflated with `null` (both are
falsy and no claim distinguishes them); spreading a non-object payload
contributes no named field relevant to any claim, so only the
`originalMessage` key is kept in that case. -/
def errorDetails (data : Json) : Json :=
  match data with
  | .obj fs => .obj (setField fs "originalMessage" ((Json.obj fs |>.getField "detail").getD .null))
  | other => .obj [("originalMessage", ((other.getField "detail").getD .null))]

/-- The `catch` clause of `ApiClient.request` applied to a non-`ApiError`
exception: a `TypeError` whose message mentions `fetch` becomes the
connectivity error; anything else becomes a generic status-0 `ApiError`
with the exception's own message when it is an `Error`. -/
def catchError (e : JsException) : ApiErrorT :=
  if e.isTypeError && strIncludes e.message "fetch" then
    { message := .str "Unable to connect to the server. Please check your internet connection.",
      status := 0,
      details := .fromExc e }
  else
    { message := if e.isError then .str e.message else .str "Network error",
      status := 0,
      details := .fromExc e }

/-- `ApiClient.request`. An `ApiError` thrown from the non-2xx branch is
rethrown unchanged by the catch clause (`error instanceof ApiError`), so
it is returned directly here; every other exception — the fetch failure,
a JSON-parse failure, and the `TypeError` that the member accesses
`data.detail` (non-2xx branch) and `data.data` (success return) raise
when the parsed body is `null` — goes through `catchError`. -/
def request (f : FetchOutcome) : Except ApiErrorT ApiResponse :=
  match f with
  | .netError e => .error (catchError e)
  | .response r =>
    match r.jsonBody with
    | .error e => .error (catchError e)
    | .ok data =>
      if responseOk r.status then
        match jsMember data "data" with
        | .error e => .error (catchError e)
        | .ok d => .ok { data := jsOrElse d data, success := true, status := r.status }
      else
        match jsMember data "detail" with
        | .error e => .error (catchError e)
        | .ok d =>
          .error { message := statusMessage r.status (jsOrElse d (.str "API request failed")),
                   status := r.status,
                   details := .fromJson (errorDetails data) }

/-! Stripe error mapping (`src/lib/stripe/config.ts`) and the direct
subscription flow (`handlePaymentSubmit` in the checkout page). -/

/-- STRIPE_ERROR_MESSAGES.CARD_DECLINED. -/
def CARD_DECLINED : String := "Your card was declined. Please try a different payment method."

/-- STRIPE_ERROR_MESSAGES.INSUFFICIENT_FUNDS. -/
def INSUFFICIENT_FUNDS : String := "Your card has insufficient funds. Please try a different payment method."

/-- STRIPE_ERROR_MESSAGES.EXPIRED_CARD. -/
def EXPIRED_CARD : String := "Your card has expired. Please try a different payment method."

/-- STRIPE_ERROR_MESSAGES.INCORRECT_CVC. -/
def INCORRECT_CVC : String := "Your card\x27s security code is incorrect. Please try again."

/-- STRIPE_ERROR_MESSAGES.NETWORK_ERROR. -/
def NETWORK_ERROR : String := "A network error occurred. Please check your connection and try again."

/-- STRIPE_ERROR_MESSAGES.GENERIC_ERROR. -/
def GENERIC_ERROR : String := "Something went wrong. Please try again."

/-- A value thrown or returned as an error inside the checkout flow, as the
`getErrorMessage` helper and the flow's `catch` clause inspect it: a Stripe
error object (has a `type` field, is not an `instanceof Error`), a JS
`Error` (including `ApiError`) with its message, or anything else. -/
inductive ErrInput where
  | stripeErr (ty : String) (code : Option String) (msg : Option String)
  | jsError (msg : String)
  | other

/-- `m || d` for an optional string `m` (JS: `undefined` and `''` falsy). -/
def strOrElse (m : Option String) (d : String) : String :=
  match m with
  | some s => if s != "" then s else d
  | none => d

/-- `getErrorMessage` from `src/lib/stripe/config.ts`. A Stripe error object
whose `type` is none of the three recognised ones falls through every
branch (it is not an `instanceof Error`) and yields the generic message. -/
def getErrorMessage : ErrInput → String
  | .stripeErr ty code msg =>
    if ty == "card_error" then
      match code with
      | some "card_declined" => CARD_DECLINED
      | some "insufficient_funds" => INSUFFICIENT_FUNDS
      | some "expired_card" => EXPIRED_CARD
      | some "incorrect_cvc" => INCORRECT_CVC
      | _ => strOrElse msg GENERIC_ERROR
    else if ty == "validation_error" then strOrElse msg GENERIC_ERROR
    else if ty == "api_error" then NETWORK_ERROR
    else GENERIC_ERROR
  | .jsError m => if m != "" then m else GENERIC_ERROR
  | .other => GENERIC_ERROR

/-- `err instanceof Error ? err.message : 'An unexpected error occurred'` —
the `catch` clause of `handlePaymentSubmit`. -/
def catchMessage : ErrInput → String
  | .jsError m => m
  | .stripeErr _ _ _ => "An unexpected error occurred"
  | .other => "An unexpected error occurred"

/-- The `step` state of the checkout page. -/
inductive CheckoutStep where
  | details
  | payment
  | processing
  | success
deriving DecidableEq

/-- The backend `createSubscription` response as the flow reads it. -/
structure SubResp where
  client_secret : Option String

/-- Outcomes of the asynchronous calls one run of `handlePaymentSubmit`
can make, fixed up front (the flow is deterministic given them).
`createPaymentMethod = .ok true` means a payment method came back,
`.ok false` means neither error nor payment method. `confirmCard1` is the
first `confirmCardPayment`: on success it carries `paymentIntent?.status`.
`confirmCard2` is the 3-D-Secure follow-up confirmation. -/
structure CheckoutEnv where
  ready : Bool
  cardElement : Bool
  createPaymentMethod : Except ErrInput Bool
  createSubscription : Except ErrInput SubResp
  confirmCard1 : Except ErrInput (Option String)
  confirmCard2 : Except ErrInput Unit

/-- The component state touched by `handlePaymentSubmit`. -/
structure CheckoutState where
  step : CheckoutStep
  errMsg : Option String
  success : Bool
  isProcessing : Bool

/-- Calls issued during one run of the flow. -/
structure CallCounts where
  createSubCalls : Nat
  confirmCalls : Nat

/-- The `try` body of `handlePaymentSubmit`: final state so far, calls
made, and the exception propagating out of the body if any. -/
def submitBody (env : CheckoutEnv) (s : CheckoutState) :
    CheckoutState × CallCounts × Option ErrInput :=
  if !env.cardElement then
    (s, ⟨0, 0⟩, some (.jsError "Card element not found"))
  else
    match env.createPaymentMethod with
    | .error e => (s, ⟨0, 0⟩, some (.jsError (getErrorMessage e)))
    | .ok false => (s, ⟨0, 0⟩, some (.jsError "Failed to create payment method"))
    | .ok true =>
      let s := { s with step := .processing }
      match env.createSubscription with
      | .error e => (s, ⟨1, 0⟩, some e)
      | .ok resp =>
        match resp.client_secret with
        | none => ({ s with step := .success, success := true }, ⟨1, 0⟩, none)
        | some _ =>
          match env.confirmCard1 with
          | .error e => (s, ⟨1, 1⟩, some (.jsError (getErrorMessage e)))
          | .ok st =>
            if st == some "requires_action" then
              match env.confirmCard2 with
              | .error e => (s, ⟨1, 2⟩, some (.jsError (getErrorMessage e)))
              | .ok _ => ({ s with step := .success, success := true }, ⟨1, 2⟩, none)
            else ({ s with step := .success, success := true }, ⟨1, 1⟩, none)

/-- `handlePaymentSubmit`: guard on `stripe`/`elements`/`planDetails`,
the synchronous prefix (`setIsProcessing(true)`, `setError(null)`,
`setStep('payment')`), the `try` body, then `catch` (store the message,
fall back to the `payment` step) and `finally` (`setIsProcessing(false)`). -/
def handlePaymentSubmit (env : CheckoutEnv) (s : CheckoutState) :
    CheckoutState × CallCounts :=
  if !env.ready then (s, ⟨0, 0⟩)
  else
    let s1 := { s with isProcessing := true, errMsg := none, step := .payment }
    match submitBody env s1 with
    | (s2, counts, none) => ({ s2 with isProcessing := false }, counts)
    | (s2, counts, some e) =>
      ({ s2 with errMsg := some (catchMessage e), step := .payment,
                 isProcessing := false }, counts)

/-! Auth state hook (`use-auth`): browser storage, `logout`,
`initializeAuth` (the on-mount effect) and `refreshToken`. -/

/-- The browser-storage keys the app reads and writes. -/
structure Storage where
  access_token : Option String
  refresh_token : Option String
  api_key : Option String
deriving DecidableEq

/-- The in-memory user record (only identity matters to the claims). -/
structure AuthUser where
  id : Nat
  email : String
deriving DecidableEq

/-- The state `use-auth` owns: browser storage, the API client's
in-memory access token, the `user` and `error` React state. -/
structure AuthState where
  storage : Storage
  clientToken : Option String
  user : Option AuthUser
  errMsg : Option String
  loading : Bool
deriving DecidableEq

/-- `logout`: removes `access_token` and `refresh_token` from storage,
calls `apiClient.setAccessToken(null)` (clears the in-memory token and the
storage key again), `setUser(null)`, `setError(null)`. -/
def logout (s : AuthState) : AuthState :=
  { s with
    storage := { s.storage with access_token := none, refresh_token := none },
    clientToken := none,
    user := none,
    errMsg := none }

/-- The on-mount `initializeAuth` effect: if a stored access token exists,
call `/api/v1/auth/me` (outcome `me`: `.ok` carries `response.data`, which
is only stored when truthy; `.error` means the call threw) — on failure
clear both token keys; with no stored token, do nothing. Returns the new
state and the list of endpoints called. -/
def initAuth (s : AuthState) (me : Except Unit (Option AuthUser)) :
    AuthState × List String :=
  match s.storage.access_token with
  | none => ({ s with loading := false }, [])
  | some _ =>
    match me with
    | .ok (some u) => ({ s with user := some u, loading := false }, ["/api/v1/auth/me"])
    | .ok none => ({ s with loading := false }, ["/api/v1/auth/me"])
    | .error _ =>
      ({ s with
          storage := { s.storage with access_token := none, refresh_token := none },
          loading := false }, ["/api/v1/auth/me"])

/-- `refreshToken`: with no stored refresh token, return `false` at once;
otherwise post the exchange (`resp`: `.ok` carries the new access token),
store it and update the client on success, and on any thrown error run
`logout()` and return `false`. -/
def refreshToken (s : AuthState) (resp : Except Unit String) : AuthState × Bool :=
  match s.storage.refresh_token with
  | none => (s, false)
  | some _ =>
    match resp with
    | .ok tok =>
      ({ s with
          storage := { s.storage with access_token := some tok },
          clientToken := some tok }, true)
    | .error _ => (logout s, false)

/-! Admin authorization hook (`use-admin`): `checkAdminAccess` and the
`hasPermission` closure it installs. -/

/-- The backend `AdminUserResponse` fields the hook reads
(`is_super_admin` and `permissions` are optional in the response). -/
structure AdminUserResponse where
  is_admin : Bool
  is_super_admin : Option Bool
  permissions : Option (List String)

/-- The normalized `AdminUser` the hook builds. -/
structure AdminUserRec where
  is_admin : Bool
  is_super_admin : Bool
  permissions : List String

/-- The `AdminAuthState` the hook stores (the fields the claims touch). -/
structure AdminAuthState where
  user : Option AdminUserRec
  isAuthenticated : Bool
  isLoading : Bool
  isAdmin : Bool
  isSuperAdmin : Bool
  hasPermission : String → Bool

/-- `checkAdminAccess`: unauthenticated or missing auth user, or a failed
admin fetch, installs the all-false state with `hasPermission` constantly
false; a successful fetch normalizes the response (`is_super_admin ||
false`, `permissions || []` — an empty JS array is truthy, so `getD []`
matches) and installs the membership-check closure. -/
def checkAdminAccess (authIsAuthenticated : Bool) (authUser : Option AuthUser)
    (fetch : Except Unit AdminUserResponse) : AdminAuthState :=
  if !authIsAuthenticated || authUser.isNone then
    { user := none, isAuthenticated := false, isLoading := false,
      isAdmin := false, isSuperAdmin := false, hasPermission := fun _ => false }
  else
    match fetch with
    | .error _ =>
      { user := none, isAuthenticated := false, isLoading := false,
        isAdmin := false, isSuperAdmin := false, hasPermission := fun _ => false }
    | .ok resp =>
      let adminUser : AdminUserRec :=
        { is_admin := resp.is_admin,
          is_super_admin := resp.is_super_admin.getD false,
          permissions := resp.permissions.getD [] }
      { user := some adminUser, isAuthenticated := true, isLoading := false,
        isAdmin := adminUser.is_admin, isSuperAdmin := adminUser.is_super_admin,
        hasPermission := fun permission => adminUser.permissions.contains permission }

/-! Transition system for the submit concurrency guarantee of the
checkout page. One submit run is: the click handler's synchronous prefix
sets `isProcessing` to `true` (React flushes the state update — and the
`disabled={!stripe || isProcessing}` attribute — before the browser can
deliver another click), the run then awaits tokenization, awaits the one
`createSubscription` call, and finally resets `isProcessing` to `false`.
Clicks while `isProcessing` is `true` hit a disabled button and do
nothing. -/

/-- Phase of the submit run in progress. -/
inductive SubmitPhase where
  | tokenizing
  | subscribing
  | confirming
deriving DecidableEq

/-- Observable system state: the phase of the run in progress (`none` when
`isProcessing` is `false`) and how many `createSubscription` calls are in
flight. -/
structure SubmitSys where
  processing : Option SubmitPhase
  subInFlight : Nat
deriving DecidableEq

/-- Events of the checkout page relevant to the guarantee. -/
inductive SubmitStep : SubmitSys → SubmitSys → Prop where
  | clickDisabled (s : SubmitSys) (h : s.processing.isSome) : SubmitStep s s
  | clickStart (s : SubmitSys) (h : s.processing = none) :
      SubmitStep s { processing := some .tokenizing, subInFlight := s.subInFlight }
  | tokenizeFail (s : SubmitSys) (h : s.processing = some .tokenizing) :
      SubmitStep s { s with processing := none }
  | startSub (s : SubmitSys) (h : s.processing = some .tokenizing) :
      SubmitStep s { processing := some .subscribing, subInFlight := s.subInFlight + 1 }
  | subSettles (s : SubmitSys) (h : s.processing = some .subscribing) :
      SubmitStep s { processing := some .confirming, subInFlight := s.subInFlight - 1 }
  | finish (s : SubmitSys) (h : s.processing = some .confirming) :
      SubmitStep s { s with processing := none }

/-- States reachable from the initial state (idle, nothing in flight). -/
inductive SubmitReachable : SubmitSys → Prop where
  | init : SubmitReachable ⟨none, 0⟩
  | step {s t : SubmitSys} (hs : SubmitReachable s) (hst : SubmitStep s t) :
      SubmitReachable t

/-! Helper lemmas shared between claims. -/

/-- Looking up a different key is unaffected by `setField`. -/
theorem lookupField_setField_ne (fs : List (String × Json)) (key k2 : String) (v : Json)
    (h : k2 ≠ key) : lookupField (setField fs key v) k2 = lookupField fs k2 := by
  induction fs with
  | nil =>
    simp only [setField, lookupField]
    rw [if_neg]
    simp only [beq_iff_eq]
    exact fun hh => h hh.symm
  | cons kv rest ih =>
    obtain ⟨k, w⟩ := kv
    simp only [setField]
    by_cases hk : k = key
    · subst hk
      simp only [beq_self_eq_true, if_true, lookupField]
      rw [if_neg, if_neg] <;>
        · simp only [beq_iff_eq]
          exact fun hh => h (hh ▸ rfl)
    · rw [if_neg (by simpa [beq_iff_eq] using hk)]
      simp only [lookupField]
      by_cases hk2 : k = k2
      · simp [hk2]
      · rw [if_neg (by simpa [beq_iff_eq] using hk2),
            if_neg (by simpa [beq_iff_eq] using hk2), ih]

/-- Every field of the backend payload other than `originalMessage`
survives into the details object of the thrown `ApiError`. -/
theorem errorDetails_preserves (data : Json) (k : String) (v : Json)
    (hk : k ≠ "originalMessage") (hget : data.getField k = some v) :
    (errorDetails data).getField k = some v := by
  cases data with
  | obj fs =>
    simpa [errorDetails, Json.getField, lookupField_setField_ne _ _ _ _ hk] using hget
  | null => simp [Json.getField] at hget
  | bool b => simp [Json.getField] at hget
  | num n => simp [Json.getField] at hget
  | str s => simp [Json.getField] at hget
  | arr es => simp [Json.getField] at hget

/-- On a non-null receiver, member access succeeds and agrees with the
pure field lookup. -/
theorem jsMember_ne_null (data : Json) (key : String) (hnn : data ≠ Json.null) :
    jsMember data key = .ok (data.getField key) := by
  cases data <;> first | exact absurd rfl hnn | rfl

/-- The status→message table exactly as the specification (§4.1 and the
claim wording) states it, for comparison with the code's `statusMessage`. -/
def specStatusMessage : Nat → String
  | 400 => "Invalid request. Please check your input and try again."
  | 401 => "Please log in to continue."
  | 403 => "You don\x27t have permission to perform this action."
  | 404 => "The requested resource was not found."
  | 422 => "Please check your input and try again."
  | 429 => "Too many requests. Please wait a moment and try again."
  | 500 => "Server error. Please try again later."
  | 502 => "Service temporarily unavailable. Please try again later."
  | 503 => "Service temporarily unavailable. Please try again later."
  | 504 => "Service temporarily unavailable. Please try again later."
  | _ => ""

/-- C1: for every status in {400, 401, 403, 404, 422, 429, 500, 502, 503,
504}, a non-2xx response with a non-null JSON body makes
`ApiClient.request` throw an `ApiError` whose message is exactly the fixed
user-facing string of the specification's table, whose `status` equals the
response status, and whose `details` carry every field of the raw backend
payload. (A body that is the JSON literal `null` has no payload and never
reaches the table: reading `data.detail` throws a `TypeError` that the
catch clause rethrows as a status-0 `ApiError` instead.) -/
theorem apiClient_status_message_table (status : Nat) (data : Json)
    (hnn : data ≠ Json.null)
    (hst : status ∈ [400, 401, 403, 404, 422, 429, 500, 502, 503, 504]) :
    ∃ e : ApiErrorT,
      request (.response ⟨status, .ok data⟩) = .error e ∧
      e.status = status ∧
      e.message = .str (specStatusMessage status) ∧
      (∀ k v, k ≠ "originalMessage" → data.getField k = some v →
        ∃ d : Json, e.details = .fromJson d ∧ d.getField k = some v) := by
  simp only [List.mem_cons, List.not_mem_nil, or_false] at hst
  rcases hst with h | h | h | h | h | h | h | h | h | h <;> subst h <;>
    cases data <;>
      first
        | exact absurd rfl hnn
        | exact ⟨_, rfl, rfl, rfl,
            fun k v hk hget => ⟨errorDetails _, rfl, errorDetails_preserves _ k v hk hget⟩⟩

/-- Witness for C1 at status 403 with a concrete payload. -/
theorem apiClient_status_message_table_witness :
    ∃ e : ApiErrorT,
      request (.response ⟨403, .ok (Json.obj [("detail", Json.str "no")])⟩) = .error e ∧
      e.status = 403 ∧ e.message = .str (specStatusMessage 403) :=
  match apiClient_status_message_table 403 (Json.obj [("detail", Json.str "no")])
      (fun h => Json.noConfusion h) (by decide) with
  | ⟨e, h1, h2, h3, _⟩ => ⟨e, h1, h2, h3⟩

/-- C7: a fetch-level network failure (a `TypeError` whose message
mentions `fetch`, which is how browsers report fetch failures) is rethrown
as the distinct connectivity `ApiError` with status 0; every other failing
run of `ApiClient.request` — any other fetch-level exception, a body that
fails to parse as JSON, or a non-2xx status — also rethrows an `ApiError`
to the caller rather than swallowing the failure. -/
theorem apiClient_failure_surfacing :
    (∀ e : JsException, e.isTypeError = true → strIncludes e.message "fetch" = true →
      request (.netError e) = .error
        { message := .str "Unable to connect to the server. Please check your internet connection.",
          status := 0, details := .fromExc e }) ∧
    (∀ e : JsException, ∃ err : ApiErrorT, request (.netError e) = .error err) ∧
    (∀ (status : Nat) (e : JsException),
      ∃ err : ApiErrorT, request (.response ⟨status, .error e⟩) = .error err) ∧
    (∀ (status : Nat) (data : Json), responseOk status = false →
      ∃ err : ApiErrorT, request (.response ⟨status, .ok data⟩) = .error err) := by
  refine ⟨?_, ?_, ?_, ?_⟩
  · intro e h1 h2
    simp [request, catchError, h1, h2]
  · intro e
    exact ⟨catchError e, rfl⟩
  · intro status e
    exact ⟨catchError e, rfl⟩
  · intro status data h
    rcases hm : jsMember data "detail" with e | d
    · exact ⟨catchError e, by simp [request, h, hm]⟩
    · refine ⟨{ message := statusMessage status (jsOrElse d (.str "API request failed")),
                status := status,
                details := .fromJson (errorDetails data) }, ?_⟩
      simp [request, h, hm]

/-- Witness for C7: a concrete fetch failure maps to the connectivity
error. -/
theorem apiClient_failure_surfacing_witness :
    request (.netError ⟨true, true, "Failed to fetch"⟩) = .error
      { message := .str "Unable to connect to the server. Please check your internet connection.",
        status := 0, details := .fromExc ⟨true, true, "Failed to fetch"⟩ } :=
  apiClient_failure_surfacing.1 ⟨true, true, "Failed to fetch"⟩ rfl (by decide)

/-- C10: on every 2xx response with a non-null parsed body,
`ApiClient.request` resolves with `success = true`, the HTTP status, and
the parsed body's `data` field when that field is present and truthy —
but the entire parsed body when the field is absent or falsy. (A body that
is the JSON literal `null` does not resolve: reading `data.data` throws a
`TypeError` that the catch clause rethrows as a status-0 `ApiError`.) -/
theorem apiClient_success_envelope (status : Nat) (data : Json)
    (h1 : 200 ≤ status) (h2 : status ≤ 299) (hnn : data ≠ Json.null) :
    ∃ res : ApiResponse,
      request (.response ⟨status, .ok data⟩) = .ok res ∧
      res.success = true ∧ res.status = status ∧
      (∀ v, data.getField "data" = some v → v.truthy = true → res.data = v) ∧
      (data.getField "data" = none → res.data = data) ∧
      (∀ v, data.getField "data" = some v → v.truthy = false → res.data = data) := by
  have hok : responseOk status = true := by
    simp [responseOk]
    omega
  have hmem := jsMember_ne_null data "data" hnn
  refine ⟨⟨jsOrElse (data.getField "data") data, true, status⟩, ?_, rfl, rfl, ?_, ?_, ?_⟩
  · simp [request, hok, hmem]
  · intro v hv htr
    simp [jsOrElse, hv, htr]
  · intro hv
    simp [jsOrElse, hv]
  · intro v hv htr
    simp [jsOrElse, hv, htr]

/-- Witness for C10: a 200 response whose `data` field is `null` (falsy)
yields the whole envelope as the returned data. -/
theorem apiClient_success_envelope_witness :
    ∃ res : ApiResponse,
      request (.response ⟨200, .ok (Json.obj [("data", Json.null)])⟩) = .ok res ∧
      res.data = Json.obj [("data", Json.null)] :=
  match apiClient_success_envelope 200 (Json.obj [("data", Json.null)])
      (by decide) (by decide) (fun h => Json.noConfusion h) with
  | ⟨res, hreq, _, _, _, _, hfalsy⟩ => ⟨res, hreq, hfalsy Json.null rfl rfl⟩

/-- Reduction of `getErrorMessage` on a card error to the inner code
table. -/
theorem getErrorMessage_card_eq (code msg : Option String) :
    getErrorMessage (.stripeErr "card_error" code msg) =
      (match code with
        | some "card_declined" => CARD_DECLINED
        | some "insufficient_funds" => INSUFFICIENT_FUNDS
        | some "expired_card" => EXPIRED_CARD
        | some "incorrect_cvc" => INCORRECT_CVC
        | _ => strOrElse msg GENERIC_ERROR) := rfl

/-- With a code other than the four mapped ones, a card error falls back
to the error's own message or the generic string. -/
theorem getErrorMessage_card_fallback (code msg : Option String)
    (h1 : code ≠ some "card_declined") (h2 : code ≠ some "insufficient_funds")
    (h3 : code ≠ some "expired_card") (h4 : code ≠ some "incorrect_cvc") :
    getErrorMessage (.stripeErr "card_error" code msg) = strOrElse msg GENERIC_ERROR := by
  rw [getErrorMessage_card_eq]
  split
  · exact absurd rfl h1
  · exact absurd rfl h2
  · exact absurd rfl h3
  · exact absurd rfl h4
  · rfl

/-- C2: in the direct subscription flow, when tokenization succeeds, the
backend response carries a `client_secret`, and the first confirmation
reports `requires_action`, exactly one additional `confirmCardPayment`
call is made (two confirmation calls in total), and if that call returns
no error the flow reaches the `success` step. -/
theorem checkout_requires_action_one_extra_confirm (env : CheckoutEnv) (s : CheckoutState)
    (cs : String)
    (hr : env.ready = true) (hc : env.cardElement = true)
    (hpm : env.createPaymentMethod = .ok true)
    (hsub : env.createSubscription = .ok ⟨some cs⟩)
    (hc1 : env.confirmCard1 = .ok (some "requires_action")) :
    (handlePaymentSubmit env s).2.confirmCalls = 2 ∧
    (env.confirmCard2 = .ok () →
      (handlePaymentSubmit env s).1.step = .success ∧
      (handlePaymentSubmit env s).1.success = true) := by
  constructor
  · rcases h2 : env.confirmCard2 with e | u
    · simp [handlePaymentSubmit, submitBody, hr, hc, hpm, hsub, hc1, h2]
    · simp [handlePaymentSubmit, submitBody, hr, hc, hpm, hsub, hc1, h2]
  · intro h2
    constructor <;> simp [handlePaymentSubmit, submitBody, hr, hc, hpm, hsub, hc1, h2]

/-- Witness for C2 at a concrete environment. -/
theorem checkout_requires_action_one_extra_confirm_witness :
    (handlePaymentSubmit
        ⟨true, true, .ok true, .ok ⟨some "sec"⟩, .ok (some "requires_action"), .ok ()⟩
        ⟨.details, none, false, false⟩).2.confirmCalls = 2 ∧
    (handlePaymentSubmit
        ⟨true, true, .ok true, .ok ⟨some "sec"⟩, .ok (some "requires_action"), .ok ()⟩
        ⟨.details, none, false, false⟩).1.step = .success :=
  match checkout_requires_action_one_extra_confirm
      ⟨true, true, .ok true, .ok ⟨some "sec"⟩, .ok (some "requires_action"), .ok ()⟩
      ⟨.details, none, false, false⟩ "sec" rfl rfl rfl rfl rfl with
  | ⟨hcount, himp⟩ => ⟨hcount, (himp rfl).1⟩

/-- C3: in the direct subscription flow, when tokenization succeeds and
the backend response contains no `client_secret`, the flow reaches the
`success` step without ever calling `confirmCardPayment`. -/
theorem checkout_no_secret_skips_confirm (env : CheckoutEnv) (s : CheckoutState)
    (hr : env.ready = true) (hc : env.cardElement = true)
    (hpm : env.createPaymentMethod = .ok true)
    (hsub : env.createSubscription = .ok ⟨none⟩) :
    (handlePaymentSubmit env s).2.confirmCalls = 0 ∧
    (handlePaymentSubmit env s).1.step = .success ∧
    (handlePaymentSubmit env s).1.success = true := by
  refine ⟨?_, ?_, ?_⟩ <;> simp [handlePaymentSubmit, submitBody, hr, hc, hpm, hsub]

/-- Witness for C3 at a concrete environment. -/
theorem checkout_no_secret_skips_confirm_witness :
    (handlePaymentSubmit
        ⟨true, true, .ok true, .ok ⟨none⟩, .ok none, .ok ()⟩
        ⟨.details, none, false, false⟩).2.confirmCalls = 0 ∧
    (handlePaymentSubmit
        ⟨true, true, .ok true, .ok ⟨none⟩, .ok none, .ok ()⟩
        ⟨.details, none, false, false⟩).1.step = .success :=
  match checkout_no_secret_skips_confirm
      ⟨true, true, .ok true, .ok ⟨none⟩, .ok none, .ok ()⟩
      ⟨.details, none, false, false⟩ rfl rfl rfl rfl with
  | ⟨hcount, hstep, _⟩ => ⟨hcount, hstep⟩

/-- C4: when tokenization fails with a card error, the flow ends back at
the `payment` step (with no subscription call made) and the stored error
message is the card-error table entry for the code — or, for any other
code, the error's own message when non-empty and the generic string
otherwise. -/
theorem checkout_card_error_mapping (env : CheckoutEnv) (s : CheckoutState)
    (code msg : Option String)
    (hr : env.ready = true) (hc : env.cardElement = true)
    (hpm : env.createPaymentMethod = .error (.stripeErr "card_error" code msg)) :
    (handlePaymentSubmit env s).1.step = .payment ∧
    (handlePaymentSubmit env s).2.createSubCalls = 0 ∧
    (code = some "card_declined" → (handlePaymentSubmit env s).1.errMsg =
      some "Your card was declined. Please try a different payment method.") ∧
    (code = some "insufficient_funds" → (handlePaymentSubmit env s).1.errMsg =
      some "Your card has insufficient funds. Please try a different payment method.") ∧
    (code = some "expired_card" → (handlePaymentSubmit env s).1.errMsg =
      some "Your card has expired. Please try a different payment method.") ∧
    (code = some "incorrect_cvc" → (handlePaymentSubmit env s).1.errMsg =
      some "Your card\x27s security code is incorrect. Please try again.") ∧
    (code ≠ some "card_declined" → code ≠ some "insufficient_funds" →
      code ≠ some "expired_card" → code ≠ some "incorrect_cvc" →
      (∀ m, msg = some m → m ≠ "" → (handlePaymentSubmit env s).1.errMsg = some m) ∧
      ((msg = none ∨ msg = some "") → (handlePaymentSubmit env s).1.errMsg =
        some "Something went wrong. Please try again.")) := by
  refine ⟨?_, ?_, ?_, ?_, ?_, ?_, ?_⟩
  · simp [handlePaymentSubmit, submitBody, hr, hc, hpm, catchMessage]
  · simp [handlePaymentSubmit, submitBody, hr, hc, hpm, catchMessage]
  · intro h
    subst h
    simp [handlePaymentSubmit, submitBody, hr, hc, hpm, catchMessage,
      getErrorMessage, CARD_DECLINED]
  · intro h
    subst h
    simp [handlePaymentSubmit, submitBody, hr, hc, hpm, catchMessage,
      getErrorMessage, INSUFFICIENT_FUNDS]
  · intro h
    subst h
    simp [handlePaymentSubmit, submitBody, hr, hc, hpm, catchMessage,
      getErrorMessage, EXPIRED_CARD]
  · intro h
    subst h
    simp [handlePaymentSubmit, submitBody, hr, hc, hpm, catchMessage,
      getErrorMessage, INCORRECT_CVC]
  · intro h1 h2 h3 h4
    have hfb := getErrorMessage_card_fallback code msg h1 h2 h3 h4
    constructor
    · intro m hm hne
      subst hm
      simp [handlePaymentSubmit, submitBody, hr, hc, hpm, catchMessage, hfb,
        strOrElse, hne]
    · intro hm
      rcases hm with hm | hm <;> subst hm <;>
        simp [handlePaymentSubmit, submitBody, hr, hc, hpm, catchMessage, hfb,
          strOrElse, GENERIC_ERROR]

/-- Witness for C4: a concrete declined-card run. -/
theorem checkout_card_error_mapping_witness :
    (handlePaymentSubmit
        ⟨true, true, .error (.stripeErr "card_error" (some "card_declined") none),
          .ok ⟨none⟩, .ok none, .ok ()⟩
        ⟨.details, none, false, false⟩).1.step = .payment ∧
    (handlePaymentSubmit
        ⟨true, true, .error (.stripeErr "card_error" (some "card_declined") none),
          .ok ⟨none⟩, .ok none, .ok ()⟩
        ⟨.details, none, false, false⟩).1.errMsg =
      some "Your card was declined. Please try a different payment method." :=
  match checkout_card_error_mapping
      ⟨true, true, .error (.stripeErr "card_error" (some "card_declined") none),
        .ok ⟨none⟩, .ok none, .ok ()⟩
      ⟨.details, none, false, false⟩ (some "card_declined") none rfl rfl rfl with
  | ⟨hstep, _, hdecl, _, _, _, _⟩ => ⟨hstep, hdecl rfl⟩

/-- C5: from every prior state, `logout()` removes both stored tokens,
clears the API client's access token, resets the user to `null`, and a
subsequent auth initialization (page load) finds no stored access token
and therefore never calls `/api/v1/auth/me`, whatever the backend would
answer. -/
theorem auth_logout_clears_and_no_whoami (s : AuthState)
    (me : Except Unit (Option AuthUser)) :
    (logout s).storage.access_token = none ∧
    (logout s).storage.refresh_token = none ∧
    (logout s).clientToken = none ∧
    (logout s).user = none ∧
    (initAuth (logout s) me).2 = [] :=
  ⟨rfl, rfl, rfl, rfl, rfl⟩

/-- C6 counterexample: a refresh attempt with no stored refresh token
fails (returns `false`) yet performs no logout at all — the stored access
token, the client token and the user survive unchanged, refuting the
unconditional "on failure, forces full logout" reading. -/
theorem refresh_no_token_no_logout_cex :
    (refreshToken ⟨⟨some "tok", none, none⟩, some "tok", some ⟨1, "a@b.c"⟩, none, false⟩
      (.error ())).2 = false ∧
    (refreshToken ⟨⟨some "tok", none, none⟩, some "tok", some ⟨1, "a@b.c"⟩, none, false⟩
      (.error ())).1 =
      ⟨⟨some "tok", none, none⟩, some "tok", some ⟨1, "a@b.c"⟩, none, false⟩ :=
  ⟨rfl, rfl⟩

/-- C6 amended: `refreshToken()` stores the new access token and returns
`true` on a successful exchange; when a refresh token is stored and the
exchange call fails it forces the full logout (both stored tokens removed,
client token cleared, user `null`) and returns `false`; when no refresh
token is stored it returns `false` immediately, leaving the state — in
particular the stored access token and the user — untouched. -/
theorem auth_refreshToken_contract (s : AuthState) (resp : Except Unit String) :
    (∀ t tok, s.storage.refresh_token = some t → resp = .ok tok →
      (refreshToken s resp).1.storage.access_token = some tok ∧
      (refreshToken s resp).1.clientToken = some tok ∧
      (refreshToken s resp).2 = true) ∧
    (∀ t, s.storage.refresh_token = some t → resp = .error () →
      (refreshToken s resp).1.storage.access_token = none ∧
      (refreshToken s resp).1.storage.refresh_token = none ∧
      (refreshToken s resp).1.clientToken = none ∧
      (refreshToken s resp).1.user = none ∧
      (refreshToken s resp).2 = false) ∧
    (s.storage.refresh_token = none →
      (refreshToken s resp).1 = s ∧ (refreshToken s resp).2 = false) := by
  refine ⟨?_, ?_, ?_⟩
  · intro t tok ht hresp
    subst hresp
    refine ⟨?_, ?_, ?_⟩ <;> simp [refreshToken, ht]
  · intro t ht hresp
    subst hresp
    refine ⟨?_, ?_, ?_, ?_, ?_⟩ <;> simp [refreshToken, logout, ht]
  · intro ht
    constructor <;> simp [refreshToken, ht]

/-- Witness for C6 amended: a concrete failed exchange with a stored
refresh token ends logged out with `false`. -/
theorem auth_refreshToken_contract_witness :
    (refreshToken ⟨⟨some "tok", some "ref", none⟩, some "tok", some ⟨1, "a@b.c"⟩, none, false⟩
      (.error ())).1.user = none ∧
    (refreshToken ⟨⟨some "tok", some "ref", none⟩, some "tok", some ⟨1, "a@b.c"⟩, none, false⟩
      (.error ())).2 = false :=
  match (auth_refreshToken_contract
      ⟨⟨some "tok", some "ref", none⟩, some "tok", some ⟨1, "a@b.c"⟩, none, false⟩
      (.error ())).2.1 "ref" rfl rfl with
  | ⟨_, _, _, huser, hret⟩ => ⟨huser, hret⟩

/-- C8: after a successful admin fetch, `hasPermission(name)` is a pure
membership check against the fetched permission list (normalized with
`permissions || []`); when unauthenticated, when no auth user exists, or
when the fetch failed, it returns `false` for every input. -/
theorem admin_hasPermission_membership (u : AuthUser) (resp : AdminUserResponse)
    (authUser : Option AuthUser) (a : Bool) (f : Except Unit AdminUserResponse)
    (p : String) :
    ((checkAdminAccess true (some u) (.ok resp)).hasPermission p = true ↔
      p ∈ resp.permissions.getD []) ∧
    (checkAdminAccess false authUser f).hasPermission p = false ∧
    (checkAdminAccess a none f).hasPermission p = false ∧
    (checkAdminAccess true (some u) (.error ())).hasPermission p = false := by
  refine ⟨?_, ?_, ?_, ?_⟩
  · simp [checkAdminAccess, List.contains, List.elem_iff]
  · simp [checkAdminAccess]
  · simp [checkAdminAccess]
  · simp [checkAdminAccess]

/-- Strengthened invariant for the submit transition system: a
`createSubscription` call is in flight exactly while the run in progress
is in its `subscribing` phase. -/
def submitInv (s : SubmitSys) : Prop :=
  s.subInFlight = if s.processing = some .subscribing then 1 else 0

/-- One step preserves the invariant. -/
theorem submitInv_step {s t : SubmitSys} (hinv : submitInv s) (hst : SubmitStep s t) :
    submitInv t := by
  cases hst with
  | clickDisabled h => exact hinv
  | clickStart h => simp_all [submitInv]
  | tokenizeFail h => simp_all [submitInv]
  | startSub h => simp_all [submitInv]
  | subSettles h => simp_all [submitInv]
  | finish h => simp_all [submitInv]

/-- Every reachable state satisfies the invariant. -/
theorem submitInv_reachable {s : SubmitSys} (h : SubmitReachable s) : submitInv s := by
  induction h with
  | init => simp [submitInv]
  | step hs hst ih => exact submitInv_step ih hst

/-- C9: in every reachable state of the checkout page at most one
`createSubscription` call is in flight, and this stays true across any
next event — in particular a click while a submit is processing hits the
disabled button and cannot start a second call before the first settles. -/
theorem submit_at_most_one_in_flight {s : SubmitSys} (h : SubmitReachable s) :
    s.subInFlight ≤ 1 ∧ ∀ t, SubmitStep s t → t.subInFlight ≤ 1 := by
  have hinv := submitInv_reachable h
  constructor
  · rw [submitInv] at hinv
    split at hinv <;> omega
  · intro t hst
    have hinvt := submitInv_step hinv hst
    rw [submitInv] at hinvt
    split at hinvt <;> omega

/-- Witness for C9 at the initial state. -/
theorem submit_at_most_one_in_flight_witness :
    (⟨none, 0⟩ : SubmitSys).subInFlight ≤ 1 :=
  (submit_at_most_one_in_flight SubmitReachable.init).1
